import Mathlib

/-!
Verification of the avalanche continual-learning excerpt.

The development shallowly embeds three source files:

* the online stream splitter exercised by
  `tests/benchmarks/scenarios/test_online_scenario.py` (the splitter itself,
  `split_online_stream`, lives outside the excerpt and is modelled from the
  specification);
* `avalanche/training/templates/observation_type/online_observation.py`
  (`make_optimizer`, `model_adaptation`,
  `maybe_adapt_model_and_make_optimizer`), with the external library calls
  (optimizer reset/update, model adaptation, device moves) kept abstract and
  recorded in an event trace;
* `avalanche/evaluation/metric_utils.py` (`default_cm_image_creator`,
  `get_task_label`, `phase_and_task`, `bytes2human`).
-/

/-! ## Online stream splitting (modelled from the spec) -/

/-- A sub-experience produced by the online stream splitter: its dataset is a
list of indices into the origin experience, plus the first/last markers. -/
structure SubExp where
  dataset : List Nat
  is_first_subexp : Bool
  is_last_subexp : Bool
deriving Repr, DecidableEq

/-- Ceiling division on naturals: the number of chunks of size `c` needed to
cover `n` elements (for `0 < c`). -/
def ceilDiv (n c : Nat) : Nat := (n + c - 1) / c

/-- Modelled from the spec: the repository's `split_online_stream` (in
`avalanche/benchmarks/scenarios/online.py`, outside the excerpt) splits one
source experience into sub-experiences of a fixed chunk size
`experience_size`; with `drop_last = true` only full-size chunks are kept,
otherwise the final remainder chunk is kept as well; the first sub-experience
is marked `is_first_subexp` and the last one `is_last_subexp`.  The
`experience_size = 0` case (which would not terminate in the source loop) is
mapped to the empty output and excluded by hypothesis in every theorem.
`split_chunk_count` is the number of sub-experiences one source experience of
`n` elements produces. -/
def split_chunk_count (experience_size : Nat) (drop_last : Bool) (n : Nat) : Nat :=
  if drop_last then n / experience_size else ceilDiv n experience_size

/-- Modelled from the spec: the fixed-size split of one source experience,
see `split_chunk_count`.  The `j`-th sub-experience holds the `j`-th slice of
`experience_size` consecutive indices (the final slice is shorter when the
remainder is kept). -/
def fixed_size_experience_split (experience_size : Nat) (drop_last : Bool)
    (exp : List Nat) : List SubExp :=
  if experience_size = 0 then []
  else
    (List.range (split_chunk_count experience_size drop_last exp.length)).map fun j =>
      ⟨(exp.drop (j * experience_size)).take experience_size, j == 0,
       j + 1 == split_chunk_count experience_size drop_last exp.length⟩

/-- Modelled from the spec: `split_online_stream` applies the fixed-size
split to each source experience of the stream in order and concatenates the
resulting sub-experiences into a single online stream. -/
def split_online_stream (experience_size : Nat) (drop_last : Bool)
    (stream : List (List Nat)) : List SubExp :=
  (stream.map (fixed_size_experience_split experience_size drop_last)).flatten

/-! ## `metric_utils.py`: task-label introspection -/

/-- The fields of a `PluggableStrategy` read by `get_task_label` and
`phase_and_task`. -/
structure PluggableStrategy where
  is_testing : Bool
  train_task_label : Int
  test_task_label : Int
deriving Repr, DecidableEq

/-- Embedding of `get_task_label`: the test task label during the test
phase, the train task label otherwise. -/
def get_task_label (strategy : PluggableStrategy) : Int :=
  if strategy.is_testing then strategy.test_task_label
  else strategy.train_task_label

/-- Embedding of `phase_and_task`: the phase name and the associated task
label. -/
def phase_and_task (strategy : PluggableStrategy) : String × Int :=
  if strategy.is_testing then ("Test", strategy.test_task_label)
  else ("Train", strategy.train_task_label)

/-! ## `metric_utils.py`: `bytes2human` -/

/-- The unit symbols of `bytes2human`, in the source order. -/
def bytes2human_symbols : List String := ["K", "M", "G", "T", "P", "E", "Z", "Y"]

/-- The byte scale attached to the `i`-th symbol: `1 <<< ((i + 1) * 10)`. -/
def byteScale (i : Nat) : Nat := 1 <<< ((i + 1) * 10)

/-- The binary exponent used by `float_of_nat`: the least `k` such that
`n < 2 ^ (53 + k)`, searched with explicit fuel so that concrete values
reduce by kernel evaluation; the fuel 1024 covers every `n` below `2 ^ 1076`,
and beyond the fuel the returned exponent 1024 makes the rounded value exceed
the double range, which every theorem excludes by hypothesis. -/
def float_exp_search (n : Nat) : Nat → Nat → Nat
  | 0, _ => 1024
  | Nat.succ fuel, k => if n < 2 ^ (53 + k) then k else float_exp_search n fuel (k + 1)

/-- Python's `float(n)` for a non-negative integer `n`: `n` rounded to the
nearest IEEE-754 double (53 significant bits, ties to even), returned as the
exact integer value of that double.  For `n < 2 ^ 53` this is `n` itself.
Python raises `OverflowError` once the rounded value reaches `2 ^ 1024`;
theorems about the formatted output therefore assume
`float_of_nat n < 2 ^ 1024`. -/
def float_of_nat (n : Nat) : Nat :=
  let e := float_exp_search n 1024 0
  let q := n / 2 ^ e
  let r := n % 2 ^ e
  let q2 := if 2 * r < 2 ^ e then q
            else if 2 ^ e < 2 * r then q + 1
            else if q % 2 = 0 then q else q + 1
  q2 * 2 ^ e

/-- Python's `'%.1f' % (float(n) / p)` as evaluated by `bytes2human`: `n` is
first rounded to double precision by `float(n)` (see `float_of_nat`); the
division by the scale `p`, a power of two, is then exact in doubles, and the
`'%.1f'` formatting correctly rounds that exact dyadic value to one decimal
digit with ties to even.  Modelled in integers: `10 * float_of_nat n / p`
rounded to the nearest integer (ties to even), printed with one digit after
the decimal point. -/
def format_one_decimal (n p : Nat) : String :=
  let nf := float_of_nat n
  let a := 10 * nf
  let q := a / p
  let r := a % p
  let d := if 2 * r < p then q
           else if p < 2 * r then q + 1
           else if q % 2 = 0 then q else q + 1
  toString (d / 10) ++ "." ++ toString (d % 10)

/-- The claim's exact-division reading of the formatted value: `n / p` as a
rational, rounded to one decimal digit (ties to even), with no
double-precision rounding of `n`.  Defined only to compare the claim's words
against the program's float semantics (`format_one_decimal`). -/
def format_one_decimal_exact (n p : Nat) : String :=
  let a := 10 * n
  let q := a / p
  let r := a % p
  let d := if 2 * r < p then q
           else if p < 2 * r then q + 1
           else if q % 2 = 0 then q else q + 1
  toString (d / 10) ++ "." ++ toString (d % 10)

/-- The loop body of `bytes2human`: scan `(symbol, scale)` pairs, returning
the formatted value for the first scale not exceeding `n`, and `str(n) + "B"`
when no scale fits. -/
def bytes2human_go (n : Nat) : List (String × Nat) → String
  | [] => toString n ++ "B"
  | (s, p) :: rest => if p ≤ n then format_one_decimal n p ++ s
                      else bytes2human_go n rest

/-- Embedding of `bytes2human`: the symbols are paired with their scales by
enumeration and scanned from the largest down, exactly as the source's
`for s in reversed(symbols)` loop over the `prefix` dictionary. -/
def bytes2human (n : Nat) : String :=
  bytes2human_go n
    ((bytes2human_symbols.enum.map (fun is => (is.2, byteScale is.1))).reverse)

/-! ## `online_observation.py`: the `OnlineObservation` mix-in

The strategy state keeps the fields the mix-in reads and writes.  The
external library calls (`reset_optimizer`, `update_optimizer`,
`model.parameters()`, `avalanche_model_adaptation`, `model.to(device)`) are
abstract functions supplied in an `OOOps` bundle, and each optimizer /
adaptation call performed is recorded in an `OOEvent` trace so that claims
about which calls happen (and which never happen) are meaningful.  Attribute
access on a current experience that is not an `OnlineCLExperience` (where the
Python code would raise `AttributeError`) is modelled by `Option`: the
`onlineFields` field is `some` exactly when
`isinstance(self.experience, OnlineCLExperience)` holds. -/

section OnlineObservation

variable {Model Optim Param Device Exp : Type}

/-- The `OnlineCLExperience` attributes read by the mix-in. -/
structure OnlineFields (Exp : Type) where
  access_task_boundaries : Bool
  is_first_subexp : Bool
  origin_experience : Exp
deriving Repr, DecidableEq

/-- The strategy state (`self`) as read and written by the mix-in. -/
structure OOState (Model Optim Param Device Exp : Type) where
  experience : Exp
  onlineFields : Option (OnlineFields Exp)
  model : Model
  optimizer : Optim
  model_params_before_adaptation : List Param
  device : Device
deriving Repr, DecidableEq

/-- One recorded call into the external library. -/
inductive OOEvent (Model Optim Param Exp : Type) where
  | reset_opt (o : Optim) (m : Model)
  | update_opt (o : Optim) (old_params new_params : List Param) (reset_state : Bool)
  | adapt (m : Model) (target : Exp)
deriving Repr, DecidableEq

/-- The external library functions the mix-in delegates to. -/
structure OOOps (Model Optim Param Device Exp : Type) where
  reset_optimizer : Optim → Model → Optim
  update_optimizer : Optim → List Param → List Param → Bool → Optim
  parameters : Model → List Param
  avalanche_model_adaptation : Model → Exp → Model
  toDevice : Model → Device → Model

/-- Embedding of `OnlineObservation.make_optimizer`: reset the optimizer
against the current model when task boundaries are accessible, otherwise
update it from the parameters recorded before adaptation to the model's
current parameters with `reset_state=False`.  Reading
`self.experience.access_task_boundaries` on a non-online experience is the
`none` case. -/
def make_optimizer (ops : OOOps Model Optim Param Device Exp)
    (s : OOState Model Optim Param Device Exp) :
    Option (OOState Model Optim Param Device Exp ×
      List (OOEvent Model Optim Param Exp)) :=
  match s.onlineFields with
  | none => none
  | some f =>
    if f.access_task_boundaries then
      some ({ s with optimizer := ops.reset_optimizer s.optimizer s.model },
            [.reset_opt s.optimizer s.model])
    else
      some ({ s with optimizer := (ops.update_optimizer s.optimizer
                s.model_params_before_adaptation (ops.parameters s.model) false) },
            [.update_opt s.optimizer s.model_params_before_adaptation
              (ops.parameters s.model) false])

/-- Embedding of `OnlineObservation.model_adaptation`: pick the passed model
or `self.model`; adapt it against the origin experience (online experience
with task boundaries), against the current sub-experience after recording the
pre-adaptation parameter list (online experience without boundaries), or
against the experience itself (not an online experience); return the adapted
model moved to the strategy's device together with the updated state and the
adaptation trace. -/
def model_adaptation (ops : OOOps Model Optim Param Device Exp)
    (s : OOState Model Optim Param Device Exp) (model? : Option Model) :
    Model × OOState Model Optim Param Device Exp ×
      List (OOEvent Model Optim Param Exp) :=
  let m := model?.getD s.model
  match s.onlineFields with
  | some f =>
    if f.access_task_boundaries then
      (ops.toDevice (ops.avalanche_model_adaptation m f.origin_experience) s.device,
       s, [.adapt m f.origin_experience])
    else
      (ops.toDevice (ops.avalanche_model_adaptation m s.experience) s.device,
       { s with model_params_before_adaptation := ops.parameters m },
       [.adapt m s.experience])
  | none =>
    (ops.toDevice (ops.avalanche_model_adaptation m s.experience) s.device,
     s, [.adapt m s.experience])

/-- Embedding of `OnlineObservation.maybe_adapt_model_and_make_optimizer`:
with task boundaries, adapt and rebuild the optimizer only on the first
sub-experience; without boundaries, always adapt and rebuild. -/
def maybe_adapt_model_and_make_optimizer
    (ops : OOOps Model Optim Param Device Exp)
    (s : OOState Model Optim Param Device Exp) :
    Option (OOState Model Optim Param Device Exp ×
      List (OOEvent Model Optim Param Exp)) :=
  match s.onlineFields with
  | none => none
  | some f =>
    if f.access_task_boundaries then
      if f.is_first_subexp then
        let r := model_adaptation ops s none
        match make_optimizer ops { r.2.1 with model := r.1 } with
        | none => none
        | some (s3, ev2) => some (s3, r.2.2 ++ ev2)
      else some (s, [])
    else
      let r := model_adaptation ops s none
      match make_optimizer ops { r.2.1 with model := r.1 } with
      | none => none
      | some (s3, ev2) => some (s3, r.2.2 ++ ev2)

/-- The external calls of `make_optimizer` and `model_adaptation` as
fallible operations: `error e` models the call raising the exception `e`. -/
structure OOOpsE (ε Model Optim Param Device Exp : Type) where
  reset_optimizer : Optim → Model → Except ε Optim
  update_optimizer : Optim → List Param → List Param → Bool → Except ε Optim
  parameters : Model → Except ε (List Param)
  avalanche_model_adaptation : Model → Exp → Except ε Model
  toDevice : Model → Device → Except ε Model

/-- Embedding of `make_optimizer` with fallible library calls: the function
body has no `try`/`except`, so an exception from an underlying call
propagates unchanged to the caller. -/
def make_optimizerE {ε : Type} (opsE : OOOpsE ε Model Optim Param Device Exp)
    (s : OOState Model Optim Param Device Exp) :
    Option (Except ε (OOState Model Optim Param Device Exp)) :=
  match s.onlineFields with
  | none => none
  | some f =>
    if f.access_task_boundaries then
      some (do
        let o ← opsE.reset_optimizer s.optimizer s.model
        pure { s with optimizer := o })
    else
      some (do
        let ps ← opsE.parameters s.model
        let o ← opsE.update_optimizer s.optimizer
          s.model_params_before_adaptation ps false
        pure { s with optimizer := o })

/-- Embedding of `model_adaptation` with fallible library calls, in the
source's evaluation order: with task boundaries, adapt against the origin
experience then move to the device; without, read `model.parameters()`
(recorded in `model_params_before_adaptation`), adapt against the current
sub-experience, then move to the device; on a non-online experience, adapt
against the experience itself then move to the device.  No `try`/`except`:
an exception from any of these calls propagates unchanged. -/
def model_adaptationE {ε : Type} (opsE : OOOpsE ε Model Optim Param Device Exp)
    (s : OOState Model Optim Param Device Exp) (model? : Option Model) :
    Except ε (Model × OOState Model Optim Param Device Exp) :=
  let m := model?.getD s.model
  match s.onlineFields with
  | some f =>
    if f.access_task_boundaries then do
      let m2 ← opsE.avalanche_model_adaptation m f.origin_experience
      let m3 ← opsE.toDevice m2 s.device
      pure (m3, s)
    else do
      let ps ← opsE.parameters m
      let m2 ← opsE.avalanche_model_adaptation m s.experience
      let m3 ← opsE.toDevice m2 s.device
      pure (m3, { s with model_params_before_adaptation := ps })
  | none => do
    let m2 ← opsE.avalanche_model_adaptation m s.experience
    let m3 ← opsE.toDevice m2 s.device
    pure (m3, s)

end OnlineObservation

/-! ## `metric_utils.py`: `default_cm_image_creator`

The matplotlib / scikit-learn / PIL calls are abstract functions in a
`CMOps` bundle.  To make "writes no file to disk" a real statement, the
world carries a file system (a list of written `(path, bytes)` pairs) and
`savefig` output goes through `writeSink`, which either appends a file to
the file system (a path sink) or appends the bytes to an in-memory buffer
(the `io.BytesIO` sink the source uses). -/

/-- A destination `fig.savefig` can write to. -/
inductive Sink where
  | path (p : String)
  | buffer
deriving Repr, DecidableEq

/-- Write `bytes` to a sink: a path sink records a new file on the file
system, the buffer sink appends to the in-memory buffer. -/
def writeSink (sink : Sink) (bytes : List Nat)
    (fs : List (String × List Nat)) (buf : List Nat) :
    List (String × List Nat) × List Nat :=
  match sink with
  | .path p => (fs ++ [(p, bytes)], buf)
  | .buffer => (fs, buf ++ bytes)

section ConfusionMatrix

variable {Mat Display Fig Img : Type}

/-- The external library functions `default_cm_image_creator` delegates to:
`ConfusionMatrixDisplay(...)`, `display.plot(...)`, `ax_.set_title`,
`display.figure_`, `fig.tight_layout()`, the bytes `fig.savefig(buf,
format, dpi)` writes, and `Image.open`. -/
structure CMOps (Mat Display Fig Img : Type) where
  confusionMatrixDisplay : Mat → Option (List String) → Display
  plot : Display → Bool → String → String → Option String → Display
  set_title : Display → String → Display
  figureOf : Display → Fig
  tight_layout : Fig → Fig
  savefigBytes : Fig → String → Nat → List Nat
  imageOpen : List Nat → Img

/-- Embedding of `default_cm_image_creator`: build the display, plot it, set
the title, lay out the figure, save it as a JPEG into a fresh in-memory
buffer, and return the image opened from that buffer together with the
(unchanged) file system. -/
def default_cm_image_creator (ops : CMOps Mat Display Fig Img)
    (confusion_matrix_tensor : Mat) (display_labels : Option (List String))
    (include_values : Bool) (xticks_rotation : String)
    (values_format : Option String) (cmap : String) (dpi : Nat)
    (image_title : String) (fs : List (String × List Nat)) :
    Img × List (String × List Nat) :=
  let display := ops.confusionMatrixDisplay confusion_matrix_tensor display_labels
  let display := ops.plot display include_values cmap xticks_rotation values_format
  let display := ops.set_title display image_title
  let fig := ops.figureOf display
  let fig := ops.tight_layout fig
  let buf : List Nat := []
  let r := writeSink .buffer (ops.savefigBytes fig "jpg" dpi) fs buf
  let image := ops.imageOpen r.2
  (image, r.1)

/-- The external calls of `default_cm_image_creator` as fallible
operations (including `plt.close`). -/
structure CMOpsE (ε Mat Display Fig Img : Type) where
  confusionMatrixDisplay : Mat → Option (List String) → Except ε Display
  plot : Display → Bool → String → String → Option String → Except ε Display
  set_title : Display → String → Except ε Display
  figureOf : Display → Except ε Fig
  tight_layout : Fig → Except ε Fig
  savefigBytes : Fig → String → Nat → Except ε (List Nat)
  close : Fig → Except ε Unit
  imageOpen : List Nat → Except ε Img

/-- Embedding of `default_cm_image_creator` with fallible library calls: the
body has no `try`/`except`, so the first exception raised by an underlying
call propagates unchanged.  The call order is the source's: save the figure
into the in-memory buffer, `plt.close` the figure, then open the image. -/
def default_cm_image_creatorE {ε : Type} (opsE : CMOpsE ε Mat Display Fig Img)
    (confusion_matrix_tensor : Mat) (display_labels : Option (List String))
    (include_values : Bool) (xticks_rotation : String)
    (values_format : Option String) (cmap : String) (dpi : Nat)
    (image_title : String) (fs : List (String × List Nat)) :
    Except ε (Img × List (String × List Nat)) := do
  let display ← opsE.confusionMatrixDisplay confusion_matrix_tensor display_labels
  let display ← opsE.plot display include_values cmap xticks_rotation values_format
  let display ← opsE.set_title display image_title
  let fig ← opsE.figureOf display
  let fig ← opsE.tight_layout fig
  let bytes ← opsE.savefigBytes fig "jpg" dpi
  let r := writeSink .buffer bytes fs []
  let _ ← opsE.close fig
  let image ← opsE.imageOpen r.2
  pure (image, r.1)

end ConfusionMatrix

/-! ## Concrete instantiations used by the witnesses

All abstract types are instantiated at `Nat` with simple arithmetic stand-ins
for the external library calls. -/

/-- Concrete external operations for the observation mix-in. -/
def ooOpsW : OOOps Nat Nat Nat Nat Nat where
  reset_optimizer := fun o m => o + m
  update_optimizer := fun o old_params new_params reset_state =>
    o + old_params.length + new_params.length + (if reset_state then 100 else 0)
  parameters := fun m => [m, m + 1]
  avalanche_model_adaptation := fun m target => m + target
  toDevice := fun m d => m * 1000 + d

/-- A strategy state on an online experience with task boundaries, first
sub-experience. -/
def ooStateW : OOState Nat Nat Nat Nat Nat where
  experience := 2
  onlineFields := some ⟨true, true, 5⟩
  model := 7
  optimizer := 3
  model_params_before_adaptation := [1, 2, 3]
  device := 9

/-- A strategy state on an online experience without task boundaries. -/
def ooStateNoBoundW : OOState Nat Nat Nat Nat Nat where
  experience := 2
  onlineFields := some ⟨false, true, 5⟩
  model := 7
  optimizer := 3
  model_params_before_adaptation := [1, 2, 3]
  device := 9

/-- A strategy state on an online experience with task boundaries but not on
the first sub-experience. -/
def ooStateNotFirstW : OOState Nat Nat Nat Nat Nat where
  experience := 2
  onlineFields := some ⟨true, false, 5⟩
  model := 7
  optimizer := 3
  model_params_before_adaptation := [1, 2, 3]
  device := 9

/-- A strategy state whose current experience is not an online experience. -/
def ooStatePlainW : OOState Nat Nat Nat Nat Nat where
  experience := 2
  onlineFields := none
  model := 7
  optimizer := 3
  model_params_before_adaptation := [1, 2, 3]
  device := 9

/-- Concrete fallible external operations whose optimizer reset raises
error `42` and whose model adaptation raises error `13`. -/
def ooOpsEW : OOOpsE Nat Nat Nat Nat Nat Nat where
  reset_optimizer := fun _ _ => Except.error 42
  update_optimizer := fun _ _ _ _ => Except.ok 0
  parameters := fun m => Except.ok [m]
  avalanche_model_adaptation := fun _ _ => Except.error 13
  toDevice := fun m _ => Except.ok m

/-- Concrete fallible rendering operations whose `savefig` raises error
`7`. -/
def cmOpsEW : CMOpsE Nat Nat Nat Nat Nat where
  confusionMatrixDisplay := fun _ _ => Except.ok 1
  plot := fun d _ _ _ _ => Except.ok (d + 1)
  set_title := fun d _ => Except.ok (d + 1)
  figureOf := fun d => Except.ok (d + 1)
  tight_layout := fun g => Except.ok (g + 1)
  savefigBytes := fun _ _ _ => Except.error 7
  close := fun _ => Except.ok ()
  imageOpen := fun bs => Except.ok bs.length

/-! ## Helper lemmas about the stream splitter -/

theorem range_countP_first (k : Nat) (hk : 0 < k) :
    (List.range k).countP (fun j => j == 0) = 1 := by
  obtain ⟨m, rfl⟩ : ∃ m, k = m + 1 := ⟨k - 1, by omega⟩
  rw [List.range_succ_eq_map, List.countP_cons]
  have h0 : ((List.range m).map Nat.succ).countP (fun j => j == 0) = 0 := by
    rw [List.countP_map, List.countP_eq_zero]
    intro a _
    simp [Function.comp]
  rw [h0]
  simp

theorem range_countP_last (k : Nat) (hk : 0 < k) :
    (List.range k).countP (fun j => j + 1 == k) = 1 := by
  obtain ⟨m, rfl⟩ : ∃ m, k = m + 1 := ⟨k - 1, by omega⟩
  rw [List.range_succ, List.countP_append]
  have h0 : (List.range m).countP (fun j => j + 1 == m + 1) = 0 := by
    rw [List.countP_eq_zero]
    intro a ha
    simp only [List.mem_range] at ha
    simp only [beq_iff_eq]
    omega
  rw [h0]
  simp

theorem split_chunk_count_pos (C : Nat) (drop_last : Bool) (n : Nat)
    (hC : 0 < C) (h1 : 0 < n) (h2 : drop_last = true → C ≤ n) :
    0 < split_chunk_count C drop_last n := by
  cases drop_last with
  | true =>
    rw [split_chunk_count, if_pos rfl]
    exact Nat.lt_of_lt_of_le Nat.zero_lt_one ((Nat.one_le_div_iff hC).mpr (h2 rfl))
  | false =>
    rw [split_chunk_count, if_neg (by simp), ceilDiv]
    have : 1 ≤ (n + C - 1) / C := (Nat.one_le_div_iff hC).mpr (by omega)
    omega

theorem fses_countP_first (C : Nat) (drop_last : Bool) (exp : List Nat)
    (hC : 0 < C) (h1 : 0 < exp.length) (h2 : drop_last = true → C ≤ exp.length) :
    (fixed_size_experience_split C drop_last exp).countP
      (fun e => e.is_first_subexp) = 1 := by
  rw [fixed_size_experience_split, if_neg (Nat.pos_iff_ne_zero.mp hC),
    List.countP_map]
  show (List.range (split_chunk_count C drop_last exp.length)).countP
      (fun j => j == 0) = 1
  exact range_countP_first _ (split_chunk_count_pos C drop_last exp.length hC h1 h2)

theorem fses_countP_last (C : Nat) (drop_last : Bool) (exp : List Nat)
    (hC : 0 < C) (h1 : 0 < exp.length) (h2 : drop_last = true → C ≤ exp.length) :
    (fixed_size_experience_split C drop_last exp).countP
      (fun e => e.is_last_subexp) = 1 := by
  rw [fixed_size_experience_split, if_neg (Nat.pos_iff_ne_zero.mp hC),
    List.countP_map]
  show (List.range (split_chunk_count C drop_last exp.length)).countP
      (fun j => j + 1 == split_chunk_count C drop_last exp.length) = 1
  exact range_countP_last _ (split_chunk_count_pos C drop_last exp.length hC h1 h2)

theorem fses_getLast_is_last (C : Nat) (drop_last : Bool) (exp : List Nat) :
    ∀ e, (fixed_size_experience_split C drop_last exp).getLast? = some e →
      e.is_last_subexp = true := by
  intro e he
  by_cases hC : C = 0
  · rw [fixed_size_experience_split, if_pos hC] at he
    exact absurd he (by simp)
  rw [fixed_size_experience_split, if_neg hC] at he
  rcases hk : split_chunk_count C drop_last exp.length with _ | m
  · rw [hk] at he
    exact absurd he (by simp)
  · rw [hk, List.range_succ, List.map_append, List.map_cons, List.map_nil,
      List.getLast?_concat] at he
    have : e = ⟨(exp.drop (m * C)).take C, m == 0, m + 1 == m + 1⟩ :=
      (Option.some.injEq _ _).mp he.symm
    rw [this]
    simp

theorem split_stream_countP (C : Nat) (drop_last : Bool) (p : SubExp → Bool) :
    ∀ stream : List (List Nat),
      (∀ exp ∈ stream, (fixed_size_experience_split C drop_last exp).countP p = 1) →
      (split_online_stream C drop_last stream).countP p = stream.length := by
  intro stream
  induction stream with
  | nil => intro _; rfl
  | cons a l ih =>
    intro hper
    have hsplit : split_online_stream C drop_last (a :: l) =
        fixed_size_experience_split C drop_last a ++
          split_online_stream C drop_last l := by
      simp [split_online_stream]
    rw [hsplit, List.countP_append, hper a (by simp),
      ih (fun exp hx => hper exp (by simp [hx]))]
    simp [Nat.add_comm]

theorem split_stream_getLast_is_last (C : Nat) (drop_last : Bool) :
    ∀ (stream : List (List Nat)) (e : SubExp),
      (split_online_stream C drop_last stream).getLast? = some e →
      e.is_last_subexp = true := by
  intro stream
  induction stream with
  | nil => intro e he; exact absurd he (by simp [split_online_stream])
  | cons a l ih =>
    intro e he
    have hsplit : split_online_stream C drop_last (a :: l) =
        fixed_size_experience_split C drop_last a ++
          split_online_stream C drop_last l := by
      simp [split_online_stream]
    rw [hsplit, List.getLast?_append] at he
    cases hl : (split_online_stream C drop_last l).getLast? with
    | some e2 =>
      rw [hl] at he
      simp only [Option.or] at he
      rw [(Option.some.injEq _ _).mp he.symm]
      exact ih e2 hl
    | none =>
      rw [hl] at he
      simp only [Option.or] at he
      exact fses_getLast_is_last C drop_last a e he

/-! ## Claims C1, C2, C3: the stream splitter -/

/-- Claim C1, counterexample: in a stream of two source experiences of 10
elements each (total size `S = 20`) split with chunk size `C = 10` and
`drop_last = False`, each source experience yields 1 sub-experience, not
`ceil(S / C) = 2`: the per-experience count does not follow the total stream
size. -/
theorem split_count_not_ceil_of_total_size :
    ((List.range 10).length + (List.range 10).length = 20) ∧
    (split_online_stream 10 false [List.range 10, List.range 10]).length = 2 ∧
    (fixed_size_experience_split 10 false (List.range 10)).length = 1 ∧
    ceilDiv 20 10 = 2 ∧
    (fixed_size_experience_split 10 false (List.range 10)).length ≠ ceilDiv 20 10 := by
  decide

/-- Claim C1, amended: with `drop_last = False` and chunk size `0 < C`, each
source experience yields `ceil(s / C)` sub-experiences where `s` is that
experience's own size (not the total size of the stream), and the resulting
online stream has the sum of these per-experience counts. -/
theorem split_count_eq_ceil_of_experience_size (C : Nat) (hC : 0 < C)
    (stream : List (List Nat)) :
    (∀ exp ∈ stream,
      (fixed_size_experience_split C false exp).length = ceilDiv exp.length C) ∧
    (split_online_stream C false stream).length =
      (stream.map (fun exp => ceilDiv exp.length C)).sum := by
  have h1 : ∀ exp : List Nat,
      (fixed_size_experience_split C false exp).length = ceilDiv exp.length C := by
    intro exp
    rw [fixed_size_experience_split, if_neg (Nat.pos_iff_ne_zero.mp hC)]
    simp [split_chunk_count]
  refine ⟨fun exp _ => h1 exp, ?_⟩
  rw [split_online_stream, List.length_flatten, List.map_map,
    show (List.length ∘ fixed_size_experience_split C false) =
      (fun exp => ceilDiv exp.length C) from funext fun exp => h1 exp]

/-- Witness for the amended Claim C1: chunk size 10, a stream with source
experiences of 25 and 10 elements. -/
theorem split_count_eq_ceil_of_experience_size_witness :
    (∀ exp ∈ [List.range 25, List.range 10],
      (fixed_size_experience_split 10 false exp).length = ceilDiv exp.length 10) ∧
    (split_online_stream 10 false [List.range 25, List.range 10]).length =
      ([List.range 25, List.range 10].map (fun exp => ceilDiv exp.length 10)).sum :=
  split_count_eq_ceil_of_experience_size 10 (by decide) [List.range 25, List.range 10]

/-- Claim C2: every sub-experience produced by `split_online_stream` with
chunk size `0 < C` has a dataset of exactly `C` elements when
`drop_last = True`; with `drop_last = False` every sub-experience not marked
`is_last_subexp` has exactly `C` elements and a marked one has at most `C`. -/
theorem split_online_stream_chunk_sizes (C : Nat) (hC : 0 < C)
    (drop_last : Bool) (stream : List (List Nat)) (e : SubExp)
    (he : e ∈ split_online_stream C drop_last stream) :
    (drop_last = true → e.dataset.length = C) ∧
    (drop_last = false →
      (e.is_last_subexp = false → e.dataset.length = C) ∧
      (e.is_last_subexp = true → e.dataset.length ≤ C)) := by
  simp only [split_online_stream, List.mem_flatten, List.mem_map] at he
  obtain ⟨l, ⟨exp, hexp, rfl⟩, hel⟩ := he
  rw [fixed_size_experience_split, if_neg (Nat.pos_iff_ne_zero.mp hC)] at hel
  simp only [List.mem_map, List.mem_range] at hel
  obtain ⟨j, hj, rfl⟩ := hel
  constructor
  · intro hd
    subst hd
    have hj' : j < exp.length / C := by simpa [split_chunk_count] using hj
    have hmul : (j + 1) * C ≤ exp.length := (Nat.le_div_iff_mul_le hC).mp hj'
    show ((exp.drop (j * C)).take C).length = C
    rw [List.length_take, List.length_drop]
    have hexp2 : (j + 1) * C = j * C + C := by ring
    omega
  · intro hd
    subst hd
    have hj' : j < ceilDiv exp.length C := by simpa [split_chunk_count] using hj
    have hscc : split_chunk_count C false exp.length = ceilDiv exp.length C := by
      simp [split_chunk_count]
    constructor
    · intro hlast
      have hne : ¬(j + 1 = ceilDiv exp.length C) := by
        rw [hscc] at hlast
        simpa [beq_eq_false_iff_ne] using hlast
      have hlt : j + 2 ≤ (exp.length + C - 1) / C := by
        have : j + 2 ≤ ceilDiv exp.length C := by omega
        rwa [ceilDiv] at this
      have h2 : (j + 2) * C ≤ exp.length + C - 1 :=
        (Nat.le_div_iff_mul_le hC).mp hlt
      show ((exp.drop (j * C)).take C).length = C
      rw [List.length_take, List.length_drop]
      have hexp2 : (j + 2) * C = j * C + C + C := by ring
      omega
    · intro _
      show ((exp.drop (j * C)).take C).length ≤ C
      rw [List.length_take]
      omega

/-- Witness for Claim C2: the first sub-experience of a 25-element source
experience split with chunk size 10 and `drop_last = True`. -/
theorem split_online_stream_chunk_sizes_witness :
    (true = true → (⟨List.range 10, true, false⟩ : SubExp).dataset.length = 10) ∧
    (true = false →
      ((⟨List.range 10, true, false⟩ : SubExp).is_last_subexp = false →
        (⟨List.range 10, true, false⟩ : SubExp).dataset.length = 10) ∧
      ((⟨List.range 10, true, false⟩ : SubExp).is_last_subexp = true →
        (⟨List.range 10, true, false⟩ : SubExp).dataset.length ≤ 10)) :=
  split_online_stream_chunk_sizes 10 (by decide) true [List.range 25]
    ⟨List.range 10, true, false⟩ (by decide)

/-- Claim C3, counterexample: with `drop_last = True` and chunk size
`C = 10`, a source experience of 5 < C elements contributes no
sub-experience at all, so the counts of first-marked and last-marked
sub-experiences (both 0) do not equal the number of source experiences
(1). -/
theorem split_first_last_counts_can_miss_sources :
    ([List.range 5].length = 1) ∧
    (split_online_stream 10 true [List.range 5]).countP
      (fun e => e.is_first_subexp) = 0 ∧
    (split_online_stream 10 true [List.range 5]).countP
      (fun e => e.is_last_subexp) = 0 := by
  decide

/-- Claim C3, amended: with chunk size `0 < C`, provided every source
experience is non-empty and, when `drop_last = True`, has at least `C`
elements, each source experience contributes exactly one sub-experience
marked `is_first_subexp` and exactly one marked `is_last_subexp` (so each
count equals the number of source experiences), and the final sub-experience
of the online stream is marked `is_last_subexp`. -/
theorem split_online_stream_first_last_marks (C : Nat) (hC : 0 < C)
    (drop_last : Bool) (stream : List (List Nat))
    (hsz : ∀ exp ∈ stream, 0 < exp.length ∧ (drop_last = true → C ≤ exp.length)) :
    (∀ exp ∈ stream,
      (fixed_size_experience_split C drop_last exp).countP
        (fun e => e.is_first_subexp) = 1 ∧
      (fixed_size_experience_split C drop_last exp).countP
        (fun e => e.is_last_subexp) = 1) ∧
    (split_online_stream C drop_last stream).countP
      (fun e => e.is_first_subexp) = stream.length ∧
    (split_online_stream C drop_last stream).countP
      (fun e => e.is_last_subexp) = stream.length ∧
    (∀ e, (split_online_stream C drop_last stream).getLast? = some e →
      e.is_last_subexp = true) := by
  refine ⟨fun exp hx =>
      ⟨fses_countP_first C drop_last exp hC (hsz exp hx).1 (hsz exp hx).2,
       fses_countP_last C drop_last exp hC (hsz exp hx).1 (hsz exp hx).2⟩,
    split_stream_countP C drop_last _ stream (fun exp hx =>
      fses_countP_first C drop_last exp hC (hsz exp hx).1 (hsz exp hx).2),
    split_stream_countP C drop_last _ stream (fun exp hx =>
      fses_countP_last C drop_last exp hC (hsz exp hx).1 (hsz exp hx).2),
    fun e he => split_stream_getLast_is_last C drop_last stream e he⟩

/-- Witness for the amended Claim C3: chunk size 10, `drop_last = False`, one
source experience of 25 elements. -/
theorem split_online_stream_first_last_marks_witness :
    (∀ exp ∈ [List.range 25],
      (fixed_size_experience_split 10 false exp).countP
        (fun e => e.is_first_subexp) = 1 ∧
      (fixed_size_experience_split 10 false exp).countP
        (fun e => e.is_last_subexp) = 1) ∧
    (split_online_stream 10 false [List.range 25]).countP
      (fun e => e.is_first_subexp) = 1 ∧
    (split_online_stream 10 false [List.range 25]).countP
      (fun e => e.is_last_subexp) = 1 ∧
    (∀ e, (split_online_stream 10 false [List.range 25]).getLast? = some e →
      e.is_last_subexp = true) := by
  have h := split_online_stream_first_last_marks 10 (by decide) false
    [List.range 25] (by decide)
  simpa using h

/-! ## Claims C4, C5, C8: the `OnlineObservation` mix-in -/

/-- Claim C4: on an online experience, `make_optimizer` resets the optimizer
(via `reset_optimizer` on the current model) exactly when
`access_task_boundaries` is true; when the flag is false it instead updates
the optimizer (via `update_optimizer` with the parameters recorded before
adaptation and `reset_state = False`) and performs no reset. -/
theorem make_optimizer_reset_iff_boundaries
    {Model Optim Param Device Exp : Type}
    (ops : OOOps Model Optim Param Device Exp)
    (s : OOState Model Optim Param Device Exp)
    (f : OnlineFields Exp) (hf : s.onlineFields = some f) :
    ∃ s2 ev, make_optimizer ops s = some (s2, ev) ∧
      (f.access_task_boundaries = true →
        s2 = { s with optimizer := ops.reset_optimizer s.optimizer s.model } ∧
        ev = [OOEvent.reset_opt s.optimizer s.model]) ∧
      (f.access_task_boundaries = false →
        s2 = { s with optimizer := (ops.update_optimizer s.optimizer
                s.model_params_before_adaptation (ops.parameters s.model) false) } ∧
        ev = [OOEvent.update_opt s.optimizer s.model_params_before_adaptation
          (ops.parameters s.model) false]) ∧
      ((∃ o m, OOEvent.reset_opt o m ∈ ev) ↔ f.access_task_boundaries = true) := by
  cases hb : f.access_task_boundaries with
  | true =>
    refine ⟨{ s with optimizer := ops.reset_optimizer s.optimizer s.model },
      [OOEvent.reset_opt s.optimizer s.model], ?_, fun _ => ⟨rfl, rfl⟩, ?_, ?_⟩
    · rw [make_optimizer, hf]
      simp [hb]
    · intro hcontra
      simp [hb] at hcontra
    · simp [hb]
  | false =>
    refine ⟨{ s with optimizer := (ops.update_optimizer s.optimizer
        s.model_params_before_adaptation (ops.parameters s.model) false) },
      [OOEvent.update_opt s.optimizer s.model_params_before_adaptation
        (ops.parameters s.model) false], ?_, ?_, fun _ => ⟨rfl, rfl⟩, ?_⟩
    · rw [make_optimizer, hf]
      simp [hb]
    · intro hcontra
      simp [hb] at hcontra
    · simp [hb]

/-- Witness for Claim C4 at the concrete boundary-accessing state. -/
theorem make_optimizer_reset_iff_boundaries_witness :
    ∃ s2 ev, make_optimizer ooOpsW ooStateW = some (s2, ev) ∧
      ((true : Bool) = true →
        s2 = { ooStateW with optimizer := (ooOpsW.reset_optimizer
                ooStateW.optimizer ooStateW.model) } ∧
        ev = [OOEvent.reset_opt ooStateW.optimizer ooStateW.model]) ∧
      ((true : Bool) = false →
        s2 = { ooStateW with optimizer := (ooOpsW.update_optimizer
                ooStateW.optimizer ooStateW.model_params_before_adaptation
                (ooOpsW.parameters ooStateW.model) false) } ∧
        ev = [OOEvent.update_opt ooStateW.optimizer
          ooStateW.model_params_before_adaptation
          (ooOpsW.parameters ooStateW.model) false]) ∧
      ((∃ o m, OOEvent.reset_opt o m ∈ ev) ↔ (true : Bool) = true) :=
  make_optimizer_reset_iff_boundaries ooOpsW ooStateW ⟨true, true, 5⟩ rfl

/-- Claim C5: `model_adaptation` adapts the passed model (defaulting to
`self.model`) against the full origin experience when the current experience
is an online experience with task boundaries; without boundaries it first
records the model's parameter list in `model_params_before_adaptation` and
adapts against the current sub-experience; on a non-online experience it
adapts against the experience itself; in every case the returned model is
the adapted model moved to the strategy's device. -/
theorem model_adaptation_cases
    {Model Optim Param Device Exp : Type}
    (ops : OOOps Model Optim Param Device Exp)
    (s : OOState Model Optim Param Device Exp) (model? : Option Model) :
    (∀ f, s.onlineFields = some f → f.access_task_boundaries = true →
      model_adaptation ops s model? =
        (ops.toDevice (ops.avalanche_model_adaptation (model?.getD s.model)
            f.origin_experience) s.device,
         s, [OOEvent.adapt (model?.getD s.model) f.origin_experience])) ∧
    (∀ f, s.onlineFields = some f → f.access_task_boundaries = false →
      model_adaptation ops s model? =
        (ops.toDevice (ops.avalanche_model_adaptation (model?.getD s.model)
            s.experience) s.device,
         { s with model_params_before_adaptation :=
             ops.parameters (model?.getD s.model) },
         [OOEvent.adapt (model?.getD s.model) s.experience])) ∧
    (s.onlineFields = none →
      model_adaptation ops s model? =
        (ops.toDevice (ops.avalanche_model_adaptation (model?.getD s.model)
            s.experience) s.device,
         s, [OOEvent.adapt (model?.getD s.model) s.experience])) ∧
    (∃ m2, (model_adaptation ops s model?).1 = ops.toDevice m2 s.device) := by
  refine ⟨?_, ?_, ?_, ?_⟩
  · intro f hf hb
    rw [model_adaptation, hf]
    simp [hb]
  · intro f hf hb
    rw [model_adaptation, hf]
    simp [hb]
  · intro hf
    rw [model_adaptation, hf]
  · cases hf : s.onlineFields with
    | some f =>
      cases hb : f.access_task_boundaries with
      | true =>
        refine ⟨ops.avalanche_model_adaptation (model?.getD s.model)
          f.origin_experience, ?_⟩
        rw [model_adaptation, hf]
        simp [hb]
      | false =>
        refine ⟨ops.avalanche_model_adaptation (model?.getD s.model)
          s.experience, ?_⟩
        rw [model_adaptation, hf]
        simp [hb]
    | none =>
      exact ⟨ops.avalanche_model_adaptation (model?.getD s.model) s.experience,
        by rw [model_adaptation, hf]⟩

/-- Witness for Claim C5: the three branches at concrete states (with task
boundaries, without, and on a non-online experience). -/
theorem model_adaptation_cases_witness :
    model_adaptation ooOpsW ooStateW none =
      (ooOpsW.toDevice (ooOpsW.avalanche_model_adaptation 7 5) 9, ooStateW,
        [OOEvent.adapt 7 5]) ∧
    model_adaptation ooOpsW ooStateNoBoundW none =
      (ooOpsW.toDevice (ooOpsW.avalanche_model_adaptation 7 2) 9,
        { ooStateNoBoundW with model_params_before_adaptation := [7, 8] },
        [OOEvent.adapt 7 2]) ∧
    model_adaptation ooOpsW ooStatePlainW none =
      (ooOpsW.toDevice (ooOpsW.avalanche_model_adaptation 7 2) 9, ooStatePlainW,
        [OOEvent.adapt 7 2]) := by
  refine ⟨?_, ?_, ?_⟩
  · exact (model_adaptation_cases ooOpsW ooStateW none).1 ⟨true, true, 5⟩ rfl rfl
  · exact (model_adaptation_cases ooOpsW ooStateNoBoundW none).2.1
      ⟨false, true, 5⟩ rfl rfl
  · exact (model_adaptation_cases ooOpsW ooStatePlainW none).2.2.1 rfl

/-- Claim C8: when the current experience accesses task boundaries and is not
the first sub-experience, `maybe_adapt_model_and_make_optimizer` is a no-op:
the state (model, optimizer, and every other field) is returned unchanged and
no adaptation or optimizer call is recorded. -/
theorem maybe_adapt_noop_when_not_first
    {Model Optim Param Device Exp : Type}
    (ops : OOOps Model Optim Param Device Exp)
    (s : OOState Model Optim Param Device Exp)
    (f : OnlineFields Exp) (hf : s.onlineFields = some f)
    (hb : f.access_task_boundaries = true) (hfirst : f.is_first_subexp = false) :
    maybe_adapt_model_and_make_optimizer ops s = some (s, []) := by
  rw [maybe_adapt_model_and_make_optimizer, hf]
  simp [hb, hfirst]

/-- Witness for Claim C8 at the concrete not-first state. -/
theorem maybe_adapt_noop_when_not_first_witness :
    maybe_adapt_model_and_make_optimizer ooOpsW ooStateNotFirstW =
      some (ooStateNotFirstW, []) :=
  maybe_adapt_noop_when_not_first ooOpsW ooStateNotFirstW ⟨true, false, 5⟩
    rfl rfl rfl

/-! ## Claim C6: `default_cm_image_creator` -/

/-- Claim C6: for every numeric confusion-matrix tensor and any combination
of the rendering options, `default_cm_image_creator` returns the image opened
from the in-memory buffer that holds exactly the JPEG bytes of the laid-out
figure (`format = "jpg"`, at the requested dpi), and returns the file system
unchanged: no file is written to disk. -/
theorem default_cm_image_creator_in_memory
    {Mat Display Fig Img : Type} (ops : CMOps Mat Display Fig Img)
    (cm : Mat) (display_labels : Option (List String)) (include_values : Bool)
    (xticks_rotation : String) (values_format : Option String) (cmap : String)
    (dpi : Nat) (image_title : String) (fs : List (String × List Nat)) :
    default_cm_image_creator ops cm display_labels include_values
        xticks_rotation values_format cmap dpi image_title fs =
      (ops.imageOpen (ops.savefigBytes (ops.tight_layout (ops.figureOf
          (ops.set_title (ops.plot (ops.confusionMatrixDisplay cm display_labels)
            include_values cmap xticks_rotation values_format) image_title)))
          "jpg" dpi),
       fs) := rfl

/-! ## Claim C7: error propagation -/

/-- Claim C7: none of `make_optimizer`, `model_adaptation` and
`default_cm_image_creator` defines a custom exception type or catches, wraps
or suppresses one: in the fallible embeddings the result is `error e`
exactly when the first underlying library call that runs (optimizer reset or
update, `model.parameters()`, model adaptation, the device move, or the
plotting pipeline including `plt.close`) raises `e`, every earlier call
having succeeded — the caller receives exactly the library's error. -/
theorem underlying_errors_propagate
    {ε Model Optim Param Device Exp Mat Display Fig Img : Type}
    (opsE : OOOpsE ε Model Optim Param Device Exp)
    (cmE : CMOpsE ε Mat Display Fig Img) :
    (∀ (s : OOState Model Optim Param Device Exp) (f : OnlineFields Exp) (e : ε),
      s.onlineFields = some f →
      (make_optimizerE opsE s = some (Except.error e) ↔
        (f.access_task_boundaries = true ∧
          opsE.reset_optimizer s.optimizer s.model = Except.error e) ∨
        (f.access_task_boundaries = false ∧
          (opsE.parameters s.model = Except.error e ∨
            ∃ ps, opsE.parameters s.model = Except.ok ps ∧
              opsE.update_optimizer s.optimizer s.model_params_before_adaptation
                ps false = Except.error e)))) ∧
    (∀ (s : OOState Model Optim Param Device Exp) (model? : Option Model) (e : ε),
      (∀ f, s.onlineFields = some f → f.access_task_boundaries = true →
        (model_adaptationE opsE s model? = Except.error e ↔
          opsE.avalanche_model_adaptation (model?.getD s.model)
            f.origin_experience = Except.error e ∨
          ∃ m2, opsE.avalanche_model_adaptation (model?.getD s.model)
              f.origin_experience = Except.ok m2 ∧
            opsE.toDevice m2 s.device = Except.error e)) ∧
      (∀ f, s.onlineFields = some f → f.access_task_boundaries = false →
        (model_adaptationE opsE s model? = Except.error e ↔
          opsE.parameters (model?.getD s.model) = Except.error e ∨
          ∃ ps, opsE.parameters (model?.getD s.model) = Except.ok ps ∧
            (opsE.avalanche_model_adaptation (model?.getD s.model)
                s.experience = Except.error e ∨
             ∃ m2, opsE.avalanche_model_adaptation (model?.getD s.model)
                 s.experience = Except.ok m2 ∧
               opsE.toDevice m2 s.device = Except.error e))) ∧
      (s.onlineFields = none →
        (model_adaptationE opsE s model? = Except.error e ↔
          opsE.avalanche_model_adaptation (model?.getD s.model) s.experience =
            Except.error e ∨
          ∃ m2, opsE.avalanche_model_adaptation (model?.getD s.model)
              s.experience = Except.ok m2 ∧
            opsE.toDevice m2 s.device = Except.error e))) ∧
    (∀ (cm : Mat) (display_labels : Option (List String)) (include_values : Bool)
        (xticks_rotation : String) (values_format : Option String)
        (cmap : String) (dpi : Nat) (image_title : String)
        (fs : List (String × List Nat)) (e : ε),
      (default_cm_image_creatorE cmE cm display_labels include_values
          xticks_rotation values_format cmap dpi image_title fs =
            Except.error e ↔
        cmE.confusionMatrixDisplay cm display_labels = Except.error e ∨
        ∃ d1, cmE.confusionMatrixDisplay cm display_labels = Except.ok d1 ∧
          (cmE.plot d1 include_values cmap xticks_rotation values_format =
              Except.error e ∨
           ∃ d2, cmE.plot d1 include_values cmap xticks_rotation values_format =
              Except.ok d2 ∧
             (cmE.set_title d2 image_title = Except.error e ∨
              ∃ d3, cmE.set_title d2 image_title = Except.ok d3 ∧
                (cmE.figureOf d3 = Except.error e ∨
                 ∃ g1, cmE.figureOf d3 = Except.ok g1 ∧
                   (cmE.tight_layout g1 = Except.error e ∨
                    ∃ g2, cmE.tight_layout g1 = Except.ok g2 ∧
                      (cmE.savefigBytes g2 "jpg" dpi = Except.error e ∨
                       ∃ bs, cmE.savefigBytes g2 "jpg" dpi = Except.ok bs ∧
                         (cmE.close g2 = Except.error e ∨
                          (cmE.close g2 = Except.ok () ∧
                           cmE.imageOpen (writeSink Sink.buffer bs fs []).2 =
                             Except.error e))))))))) := by
  refine ⟨?_, ?_, ?_⟩
  · intro s f e hf
    rw [make_optimizerE, hf]
    cases hb : f.access_task_boundaries with
    | true =>
      cases hr : opsE.reset_optimizer s.optimizer s.model with
      | error x => simp [hb, hr, Bind.bind, Except.bind]
      | ok o => simp [hb, hr, Bind.bind, Except.bind, pure, Except.pure]
    | false =>
      cases hp : opsE.parameters s.model with
      | error x => simp [hb, hp, Bind.bind, Except.bind]
      | ok ps =>
        cases hu : opsE.update_optimizer s.optimizer
            s.model_params_before_adaptation ps false with
        | error x => simp [hb, hp, hu, Bind.bind, Except.bind]
        | ok o => simp [hb, hp, hu, Bind.bind, Except.bind, pure, Except.pure]
  · intro s model? e
    refine ⟨?_, ?_, ?_⟩
    · intro f hf hb
      rw [model_adaptationE, hf]
      cases ha : opsE.avalanche_model_adaptation (model?.getD s.model)
          f.origin_experience with
      | error x => simp [hb, ha, Bind.bind, Except.bind]
      | ok m2 =>
        cases ht : opsE.toDevice m2 s.device with
        | error x => simp [hb, ha, ht, Bind.bind, Except.bind]
        | ok m3 => simp [hb, ha, ht, Bind.bind, Except.bind, pure, Except.pure]
    · intro f hf hb
      rw [model_adaptationE, hf]
      cases hp : opsE.parameters (model?.getD s.model) with
      | error x => simp [hb, hp, Bind.bind, Except.bind]
      | ok ps =>
        cases ha : opsE.avalanche_model_adaptation (model?.getD s.model)
            s.experience with
        | error x => simp [hb, hp, ha, Bind.bind, Except.bind]
        | ok m2 =>
          cases ht : opsE.toDevice m2 s.device with
          | error x => simp [hb, hp, ha, ht, Bind.bind, Except.bind]
          | ok m3 =>
            simp [hb, hp, ha, ht, Bind.bind, Except.bind, pure, Except.pure]
    · intro hf
      rw [model_adaptationE, hf]
      cases ha : opsE.avalanche_model_adaptation (model?.getD s.model)
          s.experience with
      | error x => simp [ha, Bind.bind, Except.bind]
      | ok m2 =>
        cases ht : opsE.toDevice m2 s.device with
        | error x => simp [ha, ht, Bind.bind, Except.bind]
        | ok m3 => simp [ha, ht, Bind.bind, Except.bind, pure, Except.pure]
  · intro cm display_labels include_values xticks_rotation values_format cmap
      dpi image_title fs e
    rw [default_cm_image_creatorE]
    cases h1 : cmE.confusionMatrixDisplay cm display_labels with
    | error x => simp [h1, Bind.bind, Except.bind]
    | ok d1 =>
      cases h2 : cmE.plot d1 include_values cmap xticks_rotation values_format with
      | error x => simp [h1, h2, Bind.bind, Except.bind]
      | ok d2 =>
        cases h3 : cmE.set_title d2 image_title with
        | error x => simp [h1, h2, h3, Bind.bind, Except.bind]
        | ok d3 =>
          cases h4 : cmE.figureOf d3 with
          | error x => simp [h1, h2, h3, h4, Bind.bind, Except.bind]
          | ok g1 =>
            cases h5 : cmE.tight_layout g1 with
            | error x => simp [h1, h2, h3, h4, h5, Bind.bind, Except.bind]
            | ok g2 =>
              cases h6 : cmE.savefigBytes g2 "jpg" dpi with
              | error x => simp [h1, h2, h3, h4, h5, h6, Bind.bind, Except.bind]
              | ok bs =>
                cases hc : cmE.close g2 with
                | error x =>
                  simp [h1, h2, h3, h4, h5, h6, hc, Bind.bind, Except.bind]
                | ok u =>
                  cases u
                  cases h7 : cmE.imageOpen (writeSink Sink.buffer bs fs []).2 with
                  | error x =>
                    simp [h1, h2, h3, h4, h5, h6, hc, h7, Bind.bind, Except.bind]
                  | ok img =>
                    simp [h1, h2, h3, h4, h5, h6, hc, h7, Bind.bind, Except.bind,
                      pure, Except.pure]

/-- Witness for Claim C7: with the concrete failing operations, the
optimizer reset's error `42`, the model adaptation's error `13` and
`savefig`'s error `7` surface unchanged. -/
theorem underlying_errors_propagate_witness :
    make_optimizerE ooOpsEW ooStateW = some (Except.error 42) ∧
    model_adaptationE ooOpsEW ooStateW none = Except.error 13 ∧
    default_cm_image_creatorE cmOpsEW 0 none true "horizontal" none "viridis"
      100 "" [] = Except.error 7 := by
  have h := @underlying_errors_propagate Nat Nat Nat Nat Nat Nat Nat Nat Nat Nat
    ooOpsEW cmOpsEW
  exact ⟨(h.1 ooStateW ⟨true, true, 5⟩ 42 rfl).mpr (Or.inl ⟨rfl, rfl⟩),
    ((h.2.1 ooStateW none 13).1 ⟨true, true, 5⟩ rfl rfl).mpr (Or.inl rfl),
    (h.2.2 0 none true "horizontal" none "viridis" 100 "" [] 7).mpr
      (Or.inr ⟨1, rfl, Or.inr ⟨2, rfl, Or.inr ⟨3, rfl, Or.inr ⟨4, rfl,
        Or.inr ⟨5, rfl, Or.inl rfl⟩⟩⟩⟩⟩)⟩

/-! ## Claim C9: `get_task_label` and `phase_and_task` -/

/-- Claim C9: `get_task_label` returns exactly the second component of
`phase_and_task`, and the first component is `"Test"` precisely when the
strategy is testing and `"Train"` precisely otherwise. -/
theorem get_task_label_matches_phase_and_task (strategy : PluggableStrategy) :
    get_task_label strategy = (phase_and_task strategy).2 ∧
    ((phase_and_task strategy).1 = "Test" ↔ strategy.is_testing = true) ∧
    ((phase_and_task strategy).1 = "Train" ↔ strategy.is_testing = false) := by
  cases h : strategy.is_testing <;>
    simp [get_task_label, phase_and_task, h]

/-! ## Claim C10: `bytes2human` -/

theorem bytes2human_eq (n : Nat) :
    bytes2human n =
      if byteScale 7 ≤ n then format_one_decimal n (byteScale 7) ++ "Y"
      else if byteScale 6 ≤ n then format_one_decimal n (byteScale 6) ++ "Z"
      else if byteScale 5 ≤ n then format_one_decimal n (byteScale 5) ++ "E"
      else if byteScale 4 ≤ n then format_one_decimal n (byteScale 4) ++ "P"
      else if byteScale 3 ≤ n then format_one_decimal n (byteScale 3) ++ "T"
      else if byteScale 2 ≤ n then format_one_decimal n (byteScale 2) ++ "G"
      else if byteScale 1 ≤ n then format_one_decimal n (byteScale 1) ++ "M"
      else if byteScale 0 ≤ n then format_one_decimal n (byteScale 0) ++ "K"
      else toString n ++ "B" := by
  rfl

/-- Claim C10, counterexample: at `n = 9851624184872959` (that is,
`35 * 2^48 - 1`), `float(n)` rounds up to `35 * 2^48` (53-bit mantissa, tie
to even), so the program computes `float(n) / 2^50 = 8.75` and returns
`"8.8P"`, while the claim's exact division `n / 2^50 = 8.74999...` formatted
to one decimal place is `"8.7"`: the returned string is not the exact
quotient formatted to one decimal place.  `byteScale 4` (the `P` scale) is
the largest scale not exceeding `n`, since `byteScale 5` already exceeds
it. -/
theorem bytes2human_not_exact_division :
    bytes2human 9851624184872959 = "8.8P" ∧
    format_one_decimal_exact 9851624184872959 (byteScale 4) ++
      bytes2human_symbols.getD 4 "" = "8.7P" ∧
    byteScale 4 ≤ 9851624184872959 ∧
    ¬ byteScale 5 ≤ 9851624184872959 ∧
    bytes2human 9851624184872959 ≠
      format_one_decimal_exact 9851624184872959 (byteScale 4) ++
        bytes2human_symbols.getD 4 "" := by
  decide

/-- Claim C10, amended: for every non-negative integer `n`, `bytes2human`
returns `str(n) + "B"` when `n < 1024`; otherwise — provided `float(n)` does
not overflow the double range (Python raises `OverflowError` once the
rounded value reaches `2^1024`) — it returns `float(n) / 2^(10*(i+1))`,
i.e. `n` rounded to double precision and then exactly divided by the
power-of-two scale, formatted to one decimal place (ties to even), followed
by the `i`-th symbol, where `i` indexes the largest of K, M, G, T, P, E, Z,
Y whose scale `2^(10*(i+1))` does not exceed `n`. -/
theorem bytes2human_correct (n : Nat) :
    (n < 1024 → bytes2human n = toString n ++ "B") ∧
    (float_of_nat n < 2 ^ 1024 →
      ∀ i : Nat, i < 8 → byteScale i ≤ n →
      (∀ j : Nat, j < 8 → byteScale j ≤ n → j ≤ i) →
      bytes2human n = format_one_decimal n (byteScale i) ++
        bytes2human_symbols.getD i "") := by
  have b0 : byteScale 0 = 1024 := by decide
  have b1 : byteScale 1 = 1048576 := by decide
  have b2 : byteScale 2 = 1073741824 := by decide
  have b3 : byteScale 3 = 1099511627776 := by decide
  have b4 : byteScale 4 = 1125899906842624 := by decide
  have b5 : byteScale 5 = 1152921504606846976 := by decide
  have b6 : byteScale 6 = 1180591620717411303424 := by decide
  have b7 : byteScale 7 = 1208925819614629174706176 := by decide
  constructor
  · intro hn
    have h7 : ¬ byteScale 7 ≤ n := by rw [b7]; omega
    have h6 : ¬ byteScale 6 ≤ n := by rw [b6]; omega
    have h5 : ¬ byteScale 5 ≤ n := by rw [b5]; omega
    have h4 : ¬ byteScale 4 ≤ n := by rw [b4]; omega
    have h3 : ¬ byteScale 3 ≤ n := by rw [b3]; omega
    have h2 : ¬ byteScale 2 ≤ n := by rw [b2]; omega
    have h1 : ¬ byteScale 1 ≤ n := by rw [b1]; omega
    have h0 : ¬ byteScale 0 ≤ n := by rw [b0]; omega
    rw [bytes2human_eq, if_neg h7, if_neg h6, if_neg h5, if_neg h4, if_neg h3,
      if_neg h2, if_neg h1, if_neg h0]
  · intro _ i hi hscale hmax
    interval_cases i
    · have n7 : ¬ byteScale 7 ≤ n := fun hh => absurd (hmax 7 (by omega) hh) (by omega)
      have n6 : ¬ byteScale 6 ≤ n := fun hh => absurd (hmax 6 (by omega) hh) (by omega)
      have n5 : ¬ byteScale 5 ≤ n := fun hh => absurd (hmax 5 (by omega) hh) (by omega)
      have n4 : ¬ byteScale 4 ≤ n := fun hh => absurd (hmax 4 (by omega) hh) (by omega)
      have n3 : ¬ byteScale 3 ≤ n := fun hh => absurd (hmax 3 (by omega) hh) (by omega)
      have n2 : ¬ byteScale 2 ≤ n := fun hh => absurd (hmax 2 (by omega) hh) (by omega)
      have n1 : ¬ byteScale 1 ≤ n := fun hh => absurd (hmax 1 (by omega) hh) (by omega)
      rw [bytes2human_eq, if_neg n7, if_neg n6, if_neg n5, if_neg n4, if_neg n3,
        if_neg n2, if_neg n1, if_pos hscale]
      rfl
    · have n7 : ¬ byteScale 7 ≤ n := fun hh => absurd (hmax 7 (by omega) hh) (by omega)
      have n6 : ¬ byteScale 6 ≤ n := fun hh => absurd (hmax 6 (by omega) hh) (by omega)
      have n5 : ¬ byteScale 5 ≤ n := fun hh => absurd (hmax 5 (by omega) hh) (by omega)
      have n4 : ¬ byteScale 4 ≤ n := fun hh => absurd (hmax 4 (by omega) hh) (by omega)
      have n3 : ¬ byteScale 3 ≤ n := fun hh => absurd (hmax 3 (by omega) hh) (by omega)
      have n2 : ¬ byteScale 2 ≤ n := fun hh => absurd (hmax 2 (by omega) hh) (by omega)
      rw [bytes2human_eq, if_neg n7, if_neg n6, if_neg n5, if_neg n4, if_neg n3,
        if_neg n2, if_pos hscale]
      rfl
    · have n7 : ¬ byteScale 7 ≤ n := fun hh => absurd (hmax 7 (by omega) hh) (by omega)
      have n6 : ¬ byteScale 6 ≤ n := fun hh => absurd (hmax 6 (by omega) hh) (by omega)
      have n5 : ¬ byteScale 5 ≤ n := fun hh => absurd (hmax 5 (by omega) hh) (by omega)
      have n4 : ¬ byteScale 4 ≤ n := fun hh => absurd (hmax 4 (by omega) hh) (by omega)
      have n3 : ¬ byteScale 3 ≤ n := fun hh => absurd (hmax 3 (by omega) hh) (by omega)
      rw [bytes2human_eq, if_neg n7, if_neg n6, if_neg n5, if_neg n4, if_neg n3,
        if_pos hscale]
      rfl
    · have n7 : ¬ byteScale 7 ≤ n := fun hh => absurd (hmax 7 (by omega) hh) (by omega)
      have n6 : ¬ byteScale 6 ≤ n := fun hh => absurd (hmax 6 (by omega) hh) (by omega)
      have n5 : ¬ byteScale 5 ≤ n := fun hh => absurd (hmax 5 (by omega) hh) (by omega)
      have n4 : ¬ byteScale 4 ≤ n := fun hh => absurd (hmax 4 (by omega) hh) (by omega)
      rw [bytes2human_eq, if_neg n7, if_neg n6, if_neg n5, if_neg n4,
        if_pos hscale]
      rfl
    · have n7 : ¬ byteScale 7 ≤ n := fun hh => absurd (hmax 7 (by omega) hh) (by omega)
      have n6 : ¬ byteScale 6 ≤ n := fun hh => absurd (hmax 6 (by omega) hh) (by omega)
      have n5 : ¬ byteScale 5 ≤ n := fun hh => absurd (hmax 5 (by omega) hh) (by omega)
      rw [bytes2human_eq, if_neg n7, if_neg n6, if_neg n5, if_pos hscale]
      rfl
    · have n7 : ¬ byteScale 7 ≤ n := fun hh => absurd (hmax 7 (by omega) hh) (by omega)
      have n6 : ¬ byteScale 6 ≤ n := fun hh => absurd (hmax 6 (by omega) hh) (by omega)
      rw [bytes2human_eq, if_neg n7, if_neg n6, if_pos hscale]
      rfl
    · have n7 : ¬ byteScale 7 ≤ n := fun hh => absurd (hmax 7 (by omega) hh) (by omega)
      rw [bytes2human_eq, if_neg n7, if_pos hscale]
      rfl
    · rw [bytes2human_eq, if_pos hscale]
      rfl

set_option maxRecDepth 8192 in
/-- Witness for the amended Claim C10 at `n = 3` (the plain-bytes branch)
and `n = 100001221` (the source's doctest value, symbol `M`, well inside the
double range). -/
theorem bytes2human_correct_witness :
    ((3 : Nat) < 1024 ∧ bytes2human 3 = toString 3 ++ "B") ∧
    (float_of_nat 100001221 < 2 ^ 1024 ∧ byteScale 1 ≤ 100001221 ∧
      bytes2human 100001221 = format_one_decimal 100001221 (byteScale 1) ++
        bytes2human_symbols.getD 1 "") := by
  refine ⟨⟨by decide, (bytes2human_correct 3).1 (by decide)⟩,
    ⟨by decide, by decide,
      (bytes2human_correct 100001221).2 (by decide) 1 (by decide) (by decide) ?_⟩⟩
  intro j hj hle
  interval_cases j <;> revert hle <;> decide
